/-
  Verification of the cbioportal-navigator resolution-and-disambiguation
  pipeline: a shallow embedding of the time-bounded cache, the gene, study
  and molecular-profile resolvers, and the page orchestrator, followed by
  theorems settling the specification claims.

  Modelling conventions:
  - Stateful TypeScript code becomes explicit state passing over a World
    record that holds the three module-level cache singletons, the current
    clock value (Date.now) and a counter of catalog-client requests.
  - async/await plus thrown exceptions become values of type
    Except String A paired with the output World; a thrown error carries
    its message string.
  - The remote catalog client and the pure URL builders are external
    collaborators; they are injected through an Env record of oracles,
    mirroring the narrow read-only client interface.
  - JavaScript truthiness is modelled explicitly where the source relies
    on it (empty strings are falsy, a stored null collapses with a cache
    miss, boolean false is falsy).
-/
import Mathlib

/-- JavaScript Map entry stored by SimpleCache: a value plus the
Date.now() timestamp recorded by set. -/
structure CacheEntry (V : Type) where
  value : V
  timestamp : Nat
deriving DecidableEq

/-- The SimpleCache class of server.ts: an association list models the
backing Map (set prepends and drops the previous binding, so lookup finds
the newest), ttl is fixed at construction in milliseconds. -/
structure SimpleCache (V : Type) where
  cache : List (String × CacheEntry V)
  ttl : Nat
deriving DecidableEq

/-- Constructor new SimpleCache(ttlMinutes): ttl = ttlMinutes * 60 * 1000. -/
def SimpleCache.create (V : Type) (ttlMinutes : Nat) : SimpleCache V :=
  ⟨[], ttlMinutes * 60 * 1000⟩

/-- set(key, value): stores value with the current timestamp,
unconditionally overwriting any prior entry for the key. -/
def SimpleCache.set {V : Type} (c : SimpleCache V) (key : String) (value : V)
    (now : Nat) : SimpleCache V :=
  ⟨(key, ⟨value, now⟩) :: c.cache.filter (fun p => p.1 != key), c.ttl⟩

/-- get(key): returns the value if present and unexpired (expiry test is
now - timestamp > ttl, strict), otherwise returns the absent marker
(none, playing the role of the returned null) and deletes the stale entry
as a side effect.  The updated cache is returned alongside. -/
def SimpleCache.get {V : Type} (c : SimpleCache V) (key : String)
    (now : Nat) : Option V × SimpleCache V :=
  match c.cache.lookup key with
  | none => (none, c)
  | some entry =>
      if now - entry.timestamp > c.ttl then
        (none, ⟨c.cache.filter (fun p => p.1 != key), c.ttl⟩)
      else
        (some entry.value, c)

/-- has(key): defined exactly as the source, get(key) !== null. -/
def SimpleCache.has {V : Type} (c : SimpleCache V) (key : String)
    (now : Nat) : Bool × SimpleCache V :=
  let r := c.get key now
  (r.1.isSome, r.2)

/-- Lookup of a key in a list from which every binding of that key was
filtered out yields nothing. -/
theorem lookup_filter_out {α : Type} (l : List (String × α)) (k : String) :
    (l.filter (fun p => p.1 != k)).lookup k = none := by
  induction l with
  | nil => rfl
  | cons hd tl ih =>
      by_cases h : hd.1 = k
      · simp [List.filter, h, ih]
      · simp only [List.filter]
        have hb : (hd.1 != k) = true := by
          simp [bne, h]
        rw [hb]
        simp only [List.lookup]
        have hk : (k == hd.1) = false := by
          simp [BEq.beq]
          exact fun he => h he.symm
        rw [hk]
        exact ih

/-- Claim C3: the SimpleCache contract.  set(k, v) records v with the
current timestamp, unconditionally overwriting any prior entry for k
(first conjunct: the backing map now binds k to the pair of v and the set
time, whatever was there before).  A subsequent get(k) returns v exactly
while now - set_time is at most ttl and returns the absent marker once
the ttl has strictly elapsed (second conjunct); when it returns absent it
has deleted the stale entry from the backing map as a side effect, and
while the entry is live it leaves it in place (third conjunct, lazy
eviction with no background sweep).  has(k) holds exactly when get(k) is
present (fourth conjunct, by the very definition taken from the source). -/
theorem simpleCache_contract {V : Type} (c : SimpleCache V) (k : String)
    (v : V) (t n : Nat) :
    ((c.set k v t).cache.lookup k = some ⟨v, t⟩) ∧
    (((c.set k v t).get k n).1 = if n - t ≤ c.ttl then some v else none) ∧
    (((c.set k v t).get k n).2.cache.lookup k =
        if n - t ≤ c.ttl then some ⟨v, t⟩ else none) ∧
    ((c.has k n).1 = ((c.get k n).1).isSome) := by
  have hline : (c.set k v t).cache.lookup k = some ⟨v, t⟩ := by
    simp [SimpleCache.set, List.lookup]
  have httl : (c.set k v t).ttl = c.ttl := rfl
  refine ⟨hline, ?_, ?_, ?_⟩
  · simp only [SimpleCache.get, hline, httl]
    by_cases h : n - t > c.ttl
    · rw [if_pos h, if_neg (by omega)]
    · rw [if_neg h, if_pos (by omega)]
  · simp only [SimpleCache.get, hline, httl]
    by_cases h : n - t > c.ttl
    · rw [if_pos h, if_neg (by omega)]
      simpa [SimpleCache.set] using
        lookup_filter_out ((k, (⟨v, t⟩ : CacheEntry V)) ::
          c.cache.filter (fun p => p.1 != k)) k
    · rw [if_neg h, if_pos (by omega)]
      exact hline
  · rfl

/-- A study record as returned by the catalog client getAllStudies and
getStudy; cancerType is the optional name of the nested cancerType object
(the only part the source reads, via cancerType?.name). -/
structure StudyRecord where
  studyId : String
  name : String
  description : Option String
  cancerType : Option String
  allSampleCount : Option Nat
deriving DecidableEq

/-- A molecular profile record as returned by getMolecularProfiles. -/
structure ProfileRecord where
  molecularProfileId : String
  molecularAlterationType : String
  name : String
  description : Option String
deriving DecidableEq

/-- ResolvedStudy as produced by the study resolver (studyResolver.ts). -/
structure ResolvedStudy where
  studyId : String
  name : String
  description : Option String
  cancerType : Option String
  allSampleCount : Option Nat
deriving DecidableEq

/-- ResolvedProfile as produced by the profile resolver. -/
structure ResolvedProfile where
  molecularProfileId : String
  molecularAlterationType : String
  name : String
  description : Option String
deriving DecidableEq

/-- Values stored in the shared studyCache instance (SimpleCache of any).
The three resolver operations store values of three shapes under three
disjoint key prefixes: booleans under validate-prefixed keys, single
records under study-prefixed keys, result lists under search-prefixed
keys.  The sum type records which shape a stored value has. -/
inductive StudyCacheValue where
  | bool (b : Bool)
  | study (s : ResolvedStudy)
  | list (l : List ResolvedStudy)
deriving DecidableEq

/-- JavaScript truthiness of a stored studyCache value: boolean false is
falsy, records and arrays (an empty array included) are truthy. -/
def StudyCacheValue.truthy : StudyCacheValue → Bool
  | .bool b => b
  | .study _ => true
  | .list _ => true

/-- The value read back where the source expects a boolean (validate).
For a boolean it is that boolean; a record or array would be consumed
through its truthiness by the caller, which the key-prefix discipline
makes unreachable. -/
def StudyCacheValue.asBool : StudyCacheValue → Bool
  | .bool b => b
  | .study _ => true
  | .list _ => true

/-- The value read back where the source expects a ResolvedStudy
(getById); non-record shapes are unreachable under the key prefixes. -/
def StudyCacheValue.asStudy : StudyCacheValue → ResolvedStudy
  | .study s => s
  | _ => ⟨"", "", none, none, none⟩

/-- The value read back where the source expects a result list (search);
non-array shapes are unreachable under the key prefixes. -/
def StudyCacheValue.asList : StudyCacheValue → List ResolvedStudy
  | .list l => l
  | _ => []

/-- Values stored in the profileCache instance by getForStudy: either the
explicit negative marker null or a resolved profile record.  (The
getAllForStudy entries under the profiles-prefixed keys are not modelled;
no claim concerns them and their prefix is disjoint.) -/
inductive ProfileCacheValue where
  | null
  | prof (p : ResolvedProfile)
deriving DecidableEq

/-- JavaScript truthiness of a stored profileCache value: the stored null
is falsy (this is what defeats the negative caching in getForStudy). -/
def ProfileCacheValue.truthy : ProfileCacheValue → Bool
  | .null => false
  | .prof _ => true

/-- The value read back where the source expects a nullable profile. -/
def ProfileCacheValue.asProfile : ProfileCacheValue → Option ResolvedProfile
  | .null => none
  | .prof p => some p

/-- The mutable process state: the three module-level cache singletons of
cache.ts, the clock consulted by Date.now(), and a counter of requests
issued through the catalog client (to express claims about which calls
reach the remote catalog). -/
structure World where
  geneCache : SimpleCache Bool
  studyCache : SimpleCache StudyCacheValue
  profileCache : SimpleCache ProfileCacheValue
  now : Nat
  catalogCalls : Nat
deriving DecidableEq

/-- Arguments of the external buildStudyUrl (urlBuilders/study). -/
structure StudyUrlArgs where
  studyIds : String
  tab : Option String
  filters : Option (List (String × String))
deriving DecidableEq

/-- Arguments of the external buildPatientUrl (urlBuilders/patient). -/
structure PatientUrlArgs where
  studyId : String
  caseId : Option String
  sampleId : Option String
  tab : Option String
deriving DecidableEq

/-- The caseSelection argument of buildResultsUrl. -/
structure CaseSelection where
  caseType : String
  caseSetId : String
deriving DecidableEq

/-- Arguments of the external buildResultsUrl (urlBuilders/results). -/
structure ResultsUrlArgs where
  studies : List String
  genes : List String
  caseSelection : CaseSelection
  tab : Option String
deriving DecidableEq

/-- External collaborators, injected: the four read-only catalog client
operations (an Except error models a rejected promise carrying its
message, covering both not-found and transport failure) and the three
pure URL builders, which the spec places out of scope. -/
structure Env where
  getAllStudies : Except String (List StudyRecord)
  getStudy : String → Except String StudyRecord
  getGene : String → Except String Unit
  getMolecularProfiles : String → Except String (List ProfileRecord)
  buildStudyUrl : StudyUrlArgs → String
  buildPatientUrl : PatientUrlArgs → String
  buildResultsUrl : ResultsUrlArgs → String

/-- apiClient.getAllStudies: one catalog request, then the oracle answer. -/
def apiGetAllStudies (env : Env) (w : World) :
    Except String (List StudyRecord) × World :=
  (env.getAllStudies, { w with catalogCalls := w.catalogCalls + 1 })

/-- apiClient.getStudy. -/
def apiGetStudy (env : Env) (studyId : String) (w : World) :
    Except String StudyRecord × World :=
  (env.getStudy studyId, { w with catalogCalls := w.catalogCalls + 1 })

/-- apiClient.getGene. -/
def apiGetGene (env : Env) (geneId : String) (w : World) :
    Except String Unit × World :=
  (env.getGene geneId, { w with catalogCalls := w.catalogCalls + 1 })

/-- apiClient.getMolecularProfiles. -/
def apiGetMolecularProfiles (env : Env) (studyId : String) (w : World) :
    Except String (List ProfileRecord) × World :=
  (env.getMolecularProfiles studyId, { w with catalogCalls := w.catalogCalls + 1 })

/-- Whether the needle occurs contiguously somewhere in the haystack. -/
def charListHasInfix (needle hay : List Char) : Bool :=
  match hay with
  | [] => needle.isEmpty
  | _ :: rest => needle.isPrefixOf hay || charListHasInfix needle rest

/-- JavaScript substring test, the String.prototype.includes used by the
study search: the needle occurs contiguously in the haystack. -/
def jsIncludes (hay needle : String) : Bool :=
  charListHasInfix needle.data hay.data

/-- The toUpperCase normalization applied to gene symbols, modelled
character by character over the string contents. -/
def jsToUpper (s : String) : String :=
  ⟨s.data.map Char.toUpper⟩

/-- The toLowerCase normalization used by the study search. -/
def jsToLower (s : String) : String :=
  ⟨s.data.map Char.toLower⟩

/-- JavaScript truthiness of an optional string field of the parameter
bag: absent is falsy, and the empty string is falsy too. -/
def jsTruthyStr (s : Option String) : Bool :=
  match s with
  | some v => v != ""
  | none => false

/-- The JavaScript or-default idiom (value or fallback) on an optional
string: the fallback is used when the field is absent or empty. -/
def jsOrStr (o : Option String) (d : String) : String :=
  match o with
  | some s => if s == "" then d else s
  | none => d

/-- GeneResolver.validate: normalizes the symbol to uppercase, consults
the gene cache (an explicit null check, so a cached false is a hit); on a
miss asks the catalog for the gene, interprets success as valid and any
failure as invalid, caches the boolean, and returns it.  Never throws. -/
def GeneResolver.validate (env : Env) (geneSymbol : String) (w : World) :
    Except String Bool × World :=
  let normalizedSymbol := jsToUpper geneSymbol
  match w.geneCache.get normalizedSymbol w.now with
  | (some cached, gc) => (.ok cached, { w with geneCache := gc })
  | (none, gc) =>
      let w1 : World := { w with geneCache := gc }
      match apiGetGene env normalizedSymbol w1 with
      | (.ok _, w2) =>
          (.ok true,
            { w2 with geneCache := w2.geneCache.set normalizedSymbol true w2.now })
      | (.error _, w2) =>
          (.ok false,
            { w2 with geneCache := w2.geneCache.set normalizedSymbol false w2.now })

/-- The per-symbol pass of GeneResolver.validateBatch: each symbol is
normalized, validated, and kept (normalized) when valid, recorded as null
when invalid.  The concurrent fan-out of Promise.all is modelled as the
left-to-right sequence of the same suspensions; the output order is the
input order either way.  A validation error would reject the whole batch,
mirroring Promise.all, but validate never throws. -/
def GeneResolver.validateBatchGo (env : Env) :
    List String → World → Except String (List (Option String)) × World
  | [], w => (.ok [], w)
  | gene :: rest, w =>
      let normalized := jsToUpper gene
      match GeneResolver.validate env normalized w with
      | (.ok isValid, w1) =>
          match GeneResolver.validateBatchGo env rest w1 with
          | (.ok others, w2) =>
              (.ok ((if isValid then some normalized else none) :: others), w2)
          | (.error e, w2) => (.error e, w2)
      | (.error e, w1) => (.error e, w1)

/-- GeneResolver.validateBatch: validates every symbol and filters out
the nulls, keeping only the normalized valid symbols. -/
def GeneResolver.validateBatch (env : Env) (geneSymbols : List String)
    (w : World) : Except String (List String) × World :=
  match GeneResolver.validateBatchGo env geneSymbols w with
  | (.ok results, w1) => (.ok (results.filterMap id), w1)
  | (.error e, w1) => (.error e, w1)

/-- The searchable text of one study record: the studyId, name,
description and cancer type name, with absent and empty fields dropped
(the filter(Boolean) of the source), joined by single spaces and
lowercased. -/
def StudyRecord.searchText (st : StudyRecord) : String :=
  jsToLower (String.intercalate " "
    ((([some st.studyId, some st.name, st.description,
        st.cancerType]).filterMap id).filter (fun f => f != "")))

/-- The study search predicate: some keyword, lowercased, occurs as a
substring of the searchable text. -/
def StudyRecord.matchesKeywords (st : StudyRecord)
    (keywords : List String) : Bool :=
  keywords.any (fun kw => jsIncludes st.searchText (jsToLower kw))

/-- The field mapping from a catalog study record to a ResolvedStudy. -/
def StudyRecord.toResolved (st : StudyRecord) : ResolvedStudy :=
  ⟨st.studyId, st.name, st.description, st.cancerType, st.allSampleCount⟩

/-- The cache key of a keyword search: the ordered comma-joined list. -/
def searchCacheKey (keywords : List String) : String :=
  "search:" ++ String.intercalate "," keywords

/-- The cache-miss path of StudyResolver.search: fetch the full catalog
listing, filter it by the keyword predicate, map the fields, store the
result list under the search key and return it.  A catalog failure
propagates. -/
def StudyResolver.searchMiss (env : Env) (keywords : List String)
    (cacheKey : String) (w : World) :
    Except String (List ResolvedStudy) × World :=
  match apiGetAllStudies env w with
  | (.ok allStudies, w1) =>
      let results :=
        (allStudies.filter (fun st => st.matchesKeywords keywords)).map
          StudyRecord.toResolved
      (.ok results,
        { w1 with studyCache :=
            w1.studyCache.set cacheKey (StudyCacheValue.list results) w1.now })
  | (.error e, w1) => (.error e, w1)

/-- StudyResolver.search: a truthy cached value under the search key is
returned as is (an empty cached list is truthy, hence a hit); otherwise
the miss path runs. -/
def StudyResolver.search (env : Env) (keywords : List String) (w : World) :
    Except String (List ResolvedStudy) × World :=
  let cacheKey := searchCacheKey keywords
  match w.studyCache.get cacheKey w.now with
  | (some v, sc) =>
      if v.truthy then (.ok v.asList, { w with studyCache := sc })
      else StudyResolver.searchMiss env keywords cacheKey
        { w with studyCache := sc }
  | (none, sc) =>
      StudyResolver.searchMiss env keywords cacheKey { w with studyCache := sc }

/-- StudyResolver.validate: explicit null check on the cache (a cached
false is a hit); on a miss a direct catalog fetch by id, any failure
interpreted as false, either boolean cached.  Never throws. -/
def StudyResolver.validate (env : Env) (studyId : String) (w : World) :
    Except String Bool × World :=
  let cacheKey := "validate:" ++ studyId
  match w.studyCache.get cacheKey w.now with
  | (some v, sc) => (.ok v.asBool, { w with studyCache := sc })
  | (none, sc) =>
      let w1 : World := { w with studyCache := sc }
      match apiGetStudy env studyId w1 with
      | (.ok _, w2) =>
          (.ok true,
            { w2 with studyCache :=
                w2.studyCache.set cacheKey (StudyCacheValue.bool true) w2.now })
      | (.error _, w2) =>
          (.ok false,
            { w2 with studyCache :=
                w2.studyCache.set cacheKey (StudyCacheValue.bool false) w2.now })

/-- The cache-miss path of StudyResolver.getById: fetch the study record,
map the fields, cache and return it.  Unlike validate, a fetch failure
propagates to the caller. -/
def StudyResolver.getByIdMiss (env : Env) (studyId : String)
    (cacheKey : String) (w : World) : Except String ResolvedStudy × World :=
  match apiGetStudy env studyId w with
  | (.ok study, w1) =>
      let result : ResolvedStudy :=
        ⟨study.studyId, study.name, study.description, study.cancerType,
          study.allSampleCount⟩
      (.ok result,
        { w1 with studyCache :=
            w1.studyCache.set cacheKey (StudyCacheValue.study result) w1.now })
  | (.error e, w1) => (.error e, w1)

/-- StudyResolver.getById: truthy cache check (a record is always
truthy); otherwise the miss path runs. -/
def StudyResolver.getById (env : Env) (studyId : String) (w : World) :
    Except String ResolvedStudy × World :=
  let cacheKey := "study:" ++ studyId
  match w.studyCache.get cacheKey w.now with
  | (some v, sc) =>
      if v.truthy then (.ok v.asStudy, { w with studyCache := sc })
      else StudyResolver.getByIdMiss env studyId cacheKey
        { w with studyCache := sc }
  | (none, sc) =>
      StudyResolver.getByIdMiss env studyId cacheKey { w with studyCache := sc }

/-- The fixed alteration-type table of the profile resolver; an unknown
label falls back to the mutation code (the or-default of the source), a
deliberate policy rather than an error. -/
def ProfileResolver.mapAlterationType (t : String) : String :=
  match t with
  | "mutation" => "MUTATION_EXTENDED"
  | "cna" => "COPY_NUMBER_ALTERATION"
  | "fusion" => "FUSION"
  | "mrna" => "MRNA_EXPRESSION"
  | "protein" => "PROTEIN_LEVEL"
  | "methylation" => "METHYLATION"
  | _ => "MUTATION_EXTENDED"

/-- The cache key of a profile lookup. -/
def profileCacheKey (studyId alterationType : String) : String :=
  "profile:" ++ studyId ++ ":" ++ alterationType

/-- The cache-miss path of ProfileResolver.getForStudy: fetch all
profiles of the study, select the first whose alteration-type code
matches the mapped target, cache either the mapped profile or the
explicit null marker; any catalog failure is swallowed (logged in the
source) and yields none without caching.  Never throws. -/
def ProfileResolver.getForStudyMiss (env : Env)
    (studyId alterationType cacheKey : String) (w : World) :
    Except String (Option ResolvedProfile) × World :=
  match apiGetMolecularProfiles env studyId w with
  | (.ok profiles, w1) =>
      let targetType := ProfileResolver.mapAlterationType alterationType
      match profiles.find? (fun p => p.molecularAlterationType == targetType) with
      | none =>
          (.ok none,
            { w1 with profileCache :=
                w1.profileCache.set cacheKey ProfileCacheValue.null w1.now })
      | some profile =>
          let result : ResolvedProfile :=
            ⟨profile.molecularProfileId, profile.molecularAlterationType,
              profile.name, profile.description⟩
          (.ok (some result),
            { w1 with profileCache :=
                w1.profileCache.set cacheKey (ProfileCacheValue.prof result) w1.now })
  | (.error _, w1) => (.ok none, w1)

/-- ProfileResolver.getForStudy: the presence check is a JavaScript
truthiness test on the cached value, so the stored null negative marker
fails it and the miss path runs again (this is what claim C2 is about). -/
def ProfileResolver.getForStudy (env : Env)
    (studyId alterationType : String) (w : World) :
    Except String (Option ResolvedProfile) × World :=
  let cacheKey := profileCacheKey studyId alterationType
  match w.profileCache.get cacheKey w.now with
  | (some v, pc) =>
      if v.truthy then (.ok v.asProfile, { w with profileCache := pc })
      else ProfileResolver.getForStudyMiss env studyId alterationType cacheKey
        { w with profileCache := pc }
  | (none, pc) =>
      ProfileResolver.getForStudyMiss env studyId alterationType cacheKey
        { w with profileCache := pc }

/-- The parameter bag of resolve_and_build_url; all fields optional. -/
structure Params where
  studyKeywords : Option (List String) := none
  studyId : Option String := none
  patientId : Option String := none
  sampleId : Option String := none
  genes : Option (List String) := none
  alterations : Option (List String) := none
  caseSetId : Option String := none
  tab : Option String := none
  filters : Option (List (String × String)) := none
deriving DecidableEq

/-- The tool input.  targetPage is kept as a raw string so that the
default branch of the dispatch (throw on an unknown page) is expressible,
as claim C4 requires. -/
structure Input where
  targetPage : String
  parameters : Params
deriving DecidableEq

/-- The structured details field of an error response. -/
inductive Details where
  | searchTerms (terms : List String)
  | providedGenes (genes : List String)
  | errVal (e : String)
deriving DecidableEq

/-- One entry of the options list of a clarification response. -/
structure ClarOption where
  studyId : String
  name : String
  description : Option String
  sampleCount : Option Nat
deriving DecidableEq

/-- The metadata object of a success response; fields not set by a given
page handler stay absent. -/
structure Metadata where
  studyId : String
  studyName : Option String := none
  patientId : Option String := none
  sampleId : Option String := none
  genes : Option (List String) := none
  caseSetId : Option String := none
  molecularProfileId : Option String := none
deriving DecidableEq

/-- The three outcome shapes of the tool: success (true flag, url,
metadata), clarification (false flag, needsSelection true, message,
options) and error (false flag, message, optional details). -/
inductive Response where
  | success (url : String) (metadata : Metadata)
  | clarification (message : String) (options : List ClarOption)
  | error (error : String) (details : Option Details)
deriving DecidableEq

/-- The success flag of the serialized outcome. -/
def Response.successFlag : Response → Bool
  | .success _ _ => true
  | _ => false

/-- The needsSelection flag of the serialized outcome. -/
def Response.needsSelection : Response → Bool
  | .clarification _ _ => true
  | _ => false

/-- The field projection of a match used to build one clarification
option: studyId, name, description and sample count. -/
def ResolvedStudy.toOption (s : ResolvedStudy) : ClarOption :=
  ⟨s.studyId, s.name, s.description, s.allSampleCount⟩

/-- The tail of handleStudyPage once a study id is resolved: build the
url, fetch the study details for metadata (a fetch failure propagates),
and return the success outcome. -/
def studyPageFinish (env : Env) (params : Params) (studyId : String)
    (w : World) : Except String Response × World :=
  let url := env.buildStudyUrl
    { studyIds := studyId, tab := params.tab, filters := params.filters }
  match StudyResolver.getById env studyId w with
  | (.ok studyDetails, w1) =>
      (.ok (Response.success url
        { studyId := studyId, studyName := some studyDetails.name }), w1)
  | (.error e, w1) => (.error e, w1)

/-- The keyword branch of handleStudyPage: with keywords present and
non-empty, search; zero matches is an error with the search terms as
details, exactly one match proceeds with its study id, several matches
return the clarification outcome with one option per match.  Without
usable keywords the missing-input error is returned. -/
def handleStudyPageKeywords (env : Env) (params : Params) (w : World) :
    Except String Response × World :=
  match params.studyKeywords with
  | some kws =>
      if kws.length > 0 then
        match StudyResolver.search env kws w with
        | (.ok found, w1) =>
            match found with
            | [] =>
                (.ok (Response.error "No matching studies found"
                  (some (Details.searchTerms kws))), w1)
            | [m] => studyPageFinish env params m.studyId w1
            | _ =>
                (.ok (Response.clarification
                  "Multiple studies found. Please specify which one:"
                  (found.map ResolvedStudy.toOption)), w1)
        | (.error e, w1) => (.error e, w1)
      else
        (.ok (Response.error
          "Either studyId or studyKeywords must be provided" none), w)
  | none =>
      (.ok (Response.error
        "Either studyId or studyKeywords must be provided" none), w)

/-- handleStudyPage: a truthy studyId is validated directly (an invalid
id is an error naming the id); otherwise the keyword branch runs. -/
def handleStudyPage (env : Env) (params : Params) (w : World) :
    Except String Response × World :=
  match params.studyId with
  | some sid =>
      if sid == "" then handleStudyPageKeywords env params w
      else
        match StudyResolver.validate env sid w with
        | (.ok isValid, w1) =>
            if isValid then studyPageFinish env params sid w1
            else
              (.ok (Response.error
                ("Study ID \"" ++ sid ++ "\" not found") none), w1)
        | (.error e, w1) => (.error e, w1)
  | none => handleStudyPageKeywords env params w

/-- handlePatientPage: the missing studyId check, then the missing
patient-or-sample identifier check (both before any catalog call), then
study validation, then the success outcome echoing the inputs. -/
def handlePatientPage (env : Env) (params : Params) (w : World) :
    Except String Response × World :=
  if !(jsTruthyStr params.studyId) then
    (.ok (Response.error "studyId is required for patient page" none), w)
  else if !(jsTruthyStr params.patientId) && !(jsTruthyStr params.sampleId) then
    (.ok (Response.error
      "Either patientId or sampleId must be provided" none), w)
  else
    match params.studyId with
    | some sid =>
        match StudyResolver.validate env sid w with
        | (.ok isValid, w1) =>
            if isValid then
              (.ok (Response.success
                (env.buildPatientUrl
                  { studyId := sid, caseId := params.patientId,
                    sampleId := params.sampleId, tab := params.tab })
                { studyId := sid, patientId := params.patientId,
                  sampleId := params.sampleId }), w1)
            else
              (.ok (Response.error
                ("Study ID \"" ++ sid ++ "\" not found") none), w1)
        | (.error e, w1) => (.error e, w1)
    | none =>
        (.ok (Response.error "studyId is required for patient page" none), w)

/-- The tail of handleResultsPage once a study id is resolved: require a
non-empty gene list, batch-validate it, fail when no gene survived
(with the provided genes as details), otherwise look up the molecular
profile best-effort, default the case set id to the studyId_all
convention, build the url, fetch study details for metadata and return
the success outcome whose metadata carries the filtered gene list, the
case set id and the profile id if found. -/
def resultsPageFinish (env : Env) (params : Params) (studyId : String)
    (w : World) : Except String Response × World :=
  match params.genes with
  | none =>
      (.ok (Response.error "At least one gene must be provided" none), w)
  | some genes =>
      if genes.length == 0 then
        (.ok (Response.error "At least one gene must be provided" none), w)
      else
        match GeneResolver.validateBatch env genes w with
        | (.ok validGenes, w1) =>
            if validGenes.length == 0 then
              (.ok (Response.error "No valid genes found"
                (some (Details.providedGenes genes))), w1)
            else
              let alterationType :=
                jsOrStr (params.alterations.bind List.head?) "mutation"
              match ProfileResolver.getForStudy env studyId alterationType w1 with
              | (.ok profile, w2) =>
                  let caseSetId := jsOrStr params.caseSetId (studyId ++ "_all")
                  let url := env.buildResultsUrl
                    { studies := [studyId], genes := validGenes,
                      caseSelection := ⟨"case_set", caseSetId⟩,
                      tab := params.tab }
                  match StudyResolver.getById env studyId w2 with
                  | (.ok studyDetails, w3) =>
                      (.ok (Response.success url
                        { studyId := studyId,
                          studyName := some studyDetails.name,
                          genes := some validGenes,
                          caseSetId := some caseSetId,
                          molecularProfileId :=
                            profile.map ResolvedProfile.molecularProfileId }), w3)
                  | (.error e, w3) => (.error e, w3)
              | (.error e, w2) => (.error e, w2)
        | (.error e, w1) => (.error e, w1)

/-- The keyword branch of handleResultsPage, identical in structure to
the study page one, continuing with resultsPageFinish. -/
def handleResultsPageKeywords (env : Env) (params : Params) (w : World) :
    Except String Response × World :=
  match params.studyKeywords with
  | some kws =>
      if kws.length > 0 then
        match StudyResolver.search env kws w with
        | (.ok found, w1) =>
            match found with
            | [] =>
                (.ok (Response.error "No matching studies found"
                  (some (Details.searchTerms kws))), w1)
            | [m] => resultsPageFinish env params m.studyId w1
            | _ =>
                (.ok (Response.clarification
                  "Multiple studies found. Please specify which one:"
                  (found.map ResolvedStudy.toOption)), w1)
        | (.error e, w1) => (.error e, w1)
      else
        (.ok (Response.error
          "Either studyId or studyKeywords must be provided" none), w)
  | none =>
      (.ok (Response.error
        "Either studyId or studyKeywords must be provided" none), w)

/-- handleResultsPage: the same study resolution as the study page, then
the results tail. -/
def handleResultsPage (env : Env) (params : Params) (w : World) :
    Except String Response × World :=
  match params.studyId with
  | some sid =>
      if sid == "" then handleResultsPageKeywords env params w
      else
        match StudyResolver.validate env sid w with
        | (.ok isValid, w1) =>
            if isValid then resultsPageFinish env params sid w1
            else
              (.ok (Response.error
                ("Study ID \"" ++ sid ++ "\" not found") none), w1)
        | (.error e, w1) => (.error e, w1)
  | none => handleResultsPageKeywords env params w

/-- resolveAndBuildUrl: dispatch on the target page; an unknown page
value throws. -/
def resolveAndBuildUrl (env : Env) (input : Input) (w : World) :
    Except String Response × World :=
  match input.targetPage with
  | "study" => handleStudyPage env input.parameters w
  | "patient" => handlePatientPage env input.parameters w
  | "results" => handleResultsPage env input.parameters w
  | other => (.error ("Unknown target page: " ++ other), w)

/-- handleResolveAndBuildUrl: the single top-level catch boundary.  Any
exception raised anywhere during orchestration becomes an error outcome
carrying the exception message (the source serializes the outcome to
JSON; the serialization is the identity on the structured value here).
The return type has no error component: no fault propagates. -/
def handleResolveAndBuildUrl (env : Env) (input : Input) (w : World) :
    Response × World :=
  match resolveAndBuildUrl env input w with
  | (.ok result, w1) => (result, w1)
  | (.error e, w1) => (Response.error e (some (Details.errVal e)), w1)

/-- Claim C4: the tool handler is total.  Whatever exception is raised
anywhere during orchestration (resolver calls and the unknown-page throw
included), the single top-level boundary converts it into an error
outcome carrying the exception message (first conjunct); a normal result
passes through unchanged (second conjunct).  The handler return type has
no fault component, so no invocation propagates a raised fault: every
outcome is one of the three structured response shapes. -/
theorem handler_total_and_catches (env : Env) (input : Input) (w : World) :
    (∀ e w1, resolveAndBuildUrl env input w = (.error e, w1) →
        handleResolveAndBuildUrl env input w =
          (Response.error e (some (Details.errVal e)), w1)) ∧
    (∀ r w1, resolveAndBuildUrl env input w = (.ok r, w1) →
        handleResolveAndBuildUrl env input w = (r, w1)) := by
  constructor
  · intro e w1 h
    simp [handleResolveAndBuildUrl, h]
  · intro r w1 h
    simp [handleResolveAndBuildUrl, h]

/-- Claim C9: on the patient page, with studyId present (truthy) and
neither patientId nor sampleId provided, the missing-identifier error is
returned and the world is untouched: in particular no catalog request is
issued, because the presence check precedes the remote study
validation. -/
theorem patientPage_missingId_failFast (env : Env) (params : Params)
    (sid : String) (w : World)
    (hsid : params.studyId = some sid) (hne : sid ≠ "")
    (hpat : jsTruthyStr params.patientId = false)
    (hsam : jsTruthyStr params.sampleId = false) :
    handlePatientPage env params w =
      (.ok (Response.error
        "Either patientId or sampleId must be provided" none), w) ∧
    (handlePatientPage env params w).2.catalogCalls = w.catalogCalls := by
  have h1 : jsTruthyStr params.studyId = true := by
    simp [jsTruthyStr, hsid, hne]
  have hmain : handlePatientPage env params w =
      (.ok (Response.error
        "Either patientId or sampleId must be provided" none), w) := by
    simp [handlePatientPage, h1, hpat, hsam]
  exact ⟨hmain, by rw [hmain]⟩

/-- The fresh process state: the three caches as constructed in cache.ts
(60 minutes for gene validity, 30 for study data, 30 for profiles), the
clock at zero, no catalog request issued yet. -/
def initialWorld : World :=
  { geneCache := SimpleCache.create Bool 60,
    studyCache := SimpleCache.create StudyCacheValue 30,
    profileCache := SimpleCache.create ProfileCacheValue 30,
    now := 0, catalogCalls := 0 }

/-- A test catalog whose profile listing for every study is empty and
whose other operations fail; URL builders return a constant. -/
def envEmptyProfiles : Env :=
  { getAllStudies := .error "Network Error",
    getStudy := fun _ => .error "Network Error",
    getGene := fun _ => .error "Gene not found",
    getMolecularProfiles := fun _ => .ok [],
    buildStudyUrl := fun _ => "url",
    buildPatientUrl := fun _ => "url",
    buildResultsUrl := fun _ => "url" }

/-- Claim C2 evaluated on the code: after getForStudy completed a catalog
lookup for (s, mutation) that found no matching profile, the explicit
negative marker is stored under the profile cache key (second conjunct),
yet a second identical call does not return it from the cache: the truthy
presence check treats the stored null as a miss and a second catalog
request is issued, leaving the request counter at two (fourth conjunct)
instead of the one the claim demands.  Both calls return the absent
result (first and third conjuncts). -/
theorem profileNegativeCache_requeried :
    (ProfileResolver.getForStudy envEmptyProfiles "s" "mutation"
        initialWorld).1 = .ok none ∧
    ((ProfileResolver.getForStudy envEmptyProfiles "s" "mutation"
        initialWorld).2.profileCache.cache.lookup "profile:s:mutation" =
      some ⟨ProfileCacheValue.null, 0⟩) ∧
    (ProfileResolver.getForStudy envEmptyProfiles "s" "mutation"
        (ProfileResolver.getForStudy envEmptyProfiles "s" "mutation"
          initialWorld).2).1 = .ok none ∧
    (ProfileResolver.getForStudy envEmptyProfiles "s" "mutation"
        (ProfileResolver.getForStudy envEmptyProfiles "s" "mutation"
          initialWorld).2).2.catalogCalls = 2 :=
  ⟨rfl, rfl, rfl, rfl⟩

/-- Claim C10: on the study page and the results page, when both a
non-empty studyId and a non-empty studyKeywords list are supplied, the
direct id branch takes precedence: the handlers behave exactly as if the
keywords were absent (so the keywords are never consulted, no search
runs, and no clarification can arise from them), and the request is not
rejected for carrying both fields. -/
theorem directId_precedence (env : Env) (params : Params) (sid : String)
    (kws : List String) (w : World)
    (hsid : params.studyId = some sid) (hne : sid ≠ "")
    (hkw : params.studyKeywords = some kws) (hkne : kws ≠ []) :
    handleStudyPage env params w =
      handleStudyPage env { params with studyKeywords := none } w ∧
    handleResultsPage env params w =
      handleResultsPage env { params with studyKeywords := none } w := by
  have hb : (sid == "") = false := by
    simp [hne]
  constructor
  · simp only [handleStudyPage, hsid, hb, Bool.false_eq_true, if_false]
    rfl
  · simp only [handleResultsPage, hsid, hb, Bool.false_eq_true, if_false]
    rfl

/-- Claim C5: GeneResolver.validate normalizes to uppercase before any
cache or catalog access, so two symbols with the same uppercase form
(such as tp53 and TP53) drive exactly the same computation, reading and
writing the same cache entry (first conjunct).  And once a call that
reached the catalog has stored a negative result for the normalized
symbol, a later call within the ttl of that store returns false straight
from the cache, leaving the world (the catalog request counter included)
untouched, so no second catalog request is made (second conjunct). -/
theorem geneValidate_norm_and_negativeCache (env : Env) :
    (∀ s1 s2 w, jsToUpper s1 = jsToUpper s2 →
        GeneResolver.validate env s1 w = GeneResolver.validate env s2 w) ∧
    (∀ s w w1, (w.geneCache.get (jsToUpper s) w.now).1 = none →
        GeneResolver.validate env s w = (.ok false, w1) →
        ∀ t2, t2 - w.now ≤ w1.geneCache.ttl →
          GeneResolver.validate env s { w1 with now := t2 } =
            (.ok false, { w1 with now := t2 })) := by
  constructor
  · intro s1 s2 w h
    unfold GeneResolver.validate
    rw [h]
  · intro s w w1 hmiss hrun t2 ht
    rcases hg : w.geneCache.get (jsToUpper s) w.now with ⟨o, gc⟩
    rw [hg] at hmiss
    simp only at hmiss
    subst hmiss
    simp only [GeneResolver.validate, hg, apiGetGene] at hrun
    rcases he : env.getGene (jsToUpper s) with e | u
    · rw [he] at hrun
      simp only [Prod.mk.injEq, Except.ok.injEq] at hrun
      obtain ⟨-, hw1⟩ := hrun
      subst hw1
      have ht' : t2 - w.now ≤ gc.ttl := ht
      have hl : ((SimpleCache.set gc (jsToUpper s) false w.now).cache.lookup
          (jsToUpper s)) = some ⟨false, w.now⟩ := by
        simp [SimpleCache.set, List.lookup]
      have hlook : SimpleCache.get
          (SimpleCache.set gc (jsToUpper s) false w.now) (jsToUpper s) t2 =
          (some false, SimpleCache.set gc (jsToUpper s) false w.now) := by
        simp only [SimpleCache.get, hl]
        have hguard : ¬ (t2 - w.now >
            (SimpleCache.set gc (jsToUpper s) false w.now).ttl) := by
          simp only [SimpleCache.set]
          omega
        rw [if_neg hguard]
      simp only [GeneResolver.validate, hlook]
    · rw [he] at hrun
      simp only [Prod.mk.injEq, Except.ok.injEq] at hrun
      exact absurd hrun.1 (by simp)

/-- GeneResolver.validate never throws: the catalog not-found or
transport failure is swallowed into a false result. -/
theorem geneValidate_total (env : Env) (s : String) (w : World) :
    ∃ b w1, GeneResolver.validate env s w = (.ok b, w1) := by
  rcases hg : w.geneCache.get (jsToUpper s) w.now with ⟨o, gc⟩
  cases o with
  | some b =>
      refine ⟨b, { w with geneCache := gc }, ?_⟩
      simp [GeneResolver.validate, hg]
  | none =>
      rcases he : env.getGene (jsToUpper s) with e | u
      · refine ⟨false,
          { w with
              geneCache := (gc.set (jsToUpper s) false w.now),
              catalogCalls := w.catalogCalls + 1 }, ?_⟩
        simp [GeneResolver.validate, hg, apiGetGene, he]
      · refine ⟨true,
          { w with
              geneCache := (gc.set (jsToUpper s) true w.now),
              catalogCalls := w.catalogCalls + 1 }, ?_⟩
        simp [GeneResolver.validate, hg, apiGetGene, he]

/-- The result of the batch, written from the words of the claim: walk
the input symbols in order, keep the uppercase-normalized form of each
symbol whose validation (in the state reached at its turn) succeeds,
drop the others; state threads left to right. -/
def validateBatchSpec (env : Env) : List String → World → List String × World
  | [], w => ([], w)
  | g :: gs, w =>
      match GeneResolver.validate env (jsToUpper g) w with
      | (.ok true, w1) =>
          let r := validateBatchSpec env gs w1
          (jsToUpper g :: r.1, r.2)
      | (.ok false, w1) => validateBatchSpec env gs w1
      | (.error _, w1) => validateBatchSpec env gs w1

/-- validateBatchGo agrees with the claim-level description: it never
throws, its state is the threaded state, and filtering its nulls yields
exactly the kept normalized symbols. -/
theorem validateBatchGo_spec (env : Env) : ∀ (genes : List String) (w : World),
    ∃ results, GeneResolver.validateBatchGo env genes w =
        (.ok results, (validateBatchSpec env genes w).2) ∧
      results.filterMap id = (validateBatchSpec env genes w).1 := by
  intro genes
  induction genes with
  | nil => intro w; exact ⟨[], rfl, rfl⟩
  | cons g gs ih =>
      intro w
      obtain ⟨b, w1, hv⟩ := geneValidate_total env (jsToUpper g) w
      obtain ⟨results, hgo, hfm⟩ := ih w1
      cases b with
      | true =>
          refine ⟨some (jsToUpper g) :: results, ?_, ?_⟩
          · simp [GeneResolver.validateBatchGo, hv, hgo, validateBatchSpec]
          · simp [List.filterMap_cons, hfm, validateBatchSpec, hv]
      | false =>
          refine ⟨none :: results, ?_, ?_⟩
          · simp [GeneResolver.validateBatchGo, hv, hgo, validateBatchSpec]
          · simp [List.filterMap_cons, hfm, validateBatchSpec, hv]

/-- The kept symbols form an order-preserving sublist of the normalized
inputs. -/
theorem validateBatchSpec_sublist (env : Env) :
    ∀ (genes : List String) (w : World),
      List.Sublist (validateBatchSpec env genes w).1 (genes.map jsToUpper) := by
  intro genes
  induction genes with
  | nil => intro w; simp [validateBatchSpec]
  | cons g gs ih =>
      intro w
      obtain ⟨b, w1, hv⟩ := geneValidate_total env (jsToUpper g) w
      cases b with
      | true =>
          simp only [validateBatchSpec, hv, List.map_cons]
          exact List.Sublist.cons₂ _ (ih w1)
      | false =>
          simp only [validateBatchSpec, hv, List.map_cons]
          exact List.Sublist.cons _ (ih w1)

/-- Claim C6: GeneResolver.validateBatch never fails as a whole (one
symbol failing its lookup is merely validated false by validate and so
dropped), and it returns exactly the uppercase-normalized forms of the
input symbols whose validation succeeded, threaded in order (first
conjunct, the refinement against the claim-level walk), which is in
particular an order-preserving sublist of the normalized inputs (second
conjunct). -/
theorem validateBatch_characterization (env : Env) (genes : List String)
    (w : World) :
    GeneResolver.validateBatch env genes w =
      (.ok (validateBatchSpec env genes w).1,
        (validateBatchSpec env genes w).2) ∧
    List.Sublist (validateBatchSpec env genes w).1 (genes.map jsToUpper) := by
  obtain ⟨results, hgo, hfm⟩ := validateBatchGo_spec env genes w
  constructor
  · simp [GeneResolver.validateBatch, hgo, hfm]
  · exact validateBatchSpec_sublist env genes w

/-- Claim C7: on a cache miss for the keyword set, with the catalog
listing available, StudyResolver.search returns exactly the studies of
the full listing for which some lowercased keyword occurs as a substring
of the lowercase space-joined concatenation of studyId, name, description
and cancer type name (the matchesKeywords predicate taken from the
source), mapped to ResolvedStudy records in listing order (first
conjunct); and when no study matches, the result is the empty list and
not an error (second conjunct). -/
theorem search_characterization (env : Env) (kws : List String)
    (studies : List StudyRecord) (w : World)
    (hmiss : (w.studyCache.get (searchCacheKey kws) w.now).1 = none)
    (hcat : env.getAllStudies = .ok studies) :
    (∃ w1, StudyResolver.search env kws w =
      (.ok ((studies.filter
          (fun st => st.matchesKeywords kws)).map StudyRecord.toResolved),
        w1)) ∧
    ((∀ st ∈ studies, st.matchesKeywords kws = false) →
      (StudyResolver.search env kws w).1 = .ok []) := by
  rcases hg : w.studyCache.get (searchCacheKey kws) w.now with ⟨o, sc⟩
  rw [hg] at hmiss
  simp only at hmiss
  subst hmiss
  have hrun : StudyResolver.search env kws w =
      (.ok ((studies.filter
          (fun st => st.matchesKeywords kws)).map StudyRecord.toResolved),
        { w with
            studyCache :=
              (sc.set (searchCacheKey kws)
                (StudyCacheValue.list
                  ((studies.filter
                      (fun st => st.matchesKeywords kws)).map
                    StudyRecord.toResolved)) w.now),
            catalogCalls := w.catalogCalls + 1 }) := by
    simp [StudyResolver.search, hg, StudyResolver.searchMiss,
      apiGetAllStudies, hcat]
  refine ⟨⟨_, hrun⟩, ?_⟩
  intro hall
  rw [hrun]
  have hfil : studies.filter (fun st => st.matchesKeywords kws) = [] := by
    simp only [List.filter_eq_nil_iff]
    intro a ha
    simp [hall a ha]
  simp [hfil]

/-- Claim C1: keyword-based study resolution on the study page and the
results page (studyId absent or empty, studyKeywords non-empty), stated
conditionally on what the search returned.  Zero matches: both handlers
return the error outcome (with the search terms as details).  Exactly one
match: both pipelines proceed with that study id into their respective
tails.  Two or more matches: both handlers return the clarification
outcome — success false, needsSelection true by the shape projections —
whose options list is the match list mapped through the four-field
projection (studyId, name, description, sample count), hence has exactly
one entry per match. -/
theorem keyword_resolution_outcomes (env : Env) (params : Params)
    (kws : List String) (found : List ResolvedStudy) (w w1 : World)
    (hid : jsTruthyStr params.studyId = false)
    (hkw : params.studyKeywords = some kws) (hne : kws ≠ [])
    (hsearch : StudyResolver.search env kws w = (.ok found, w1)) :
    (found = [] →
        handleStudyPage env params w =
          (.ok (Response.error "No matching studies found"
            (some (Details.searchTerms kws))), w1) ∧
        handleResultsPage env params w =
          (.ok (Response.error "No matching studies found"
            (some (Details.searchTerms kws))), w1)) ∧
    (∀ m, found = [m] →
        handleStudyPage env params w = studyPageFinish env params m.studyId w1 ∧
        handleResultsPage env params w =
          resultsPageFinish env params m.studyId w1) ∧
    (2 ≤ found.length →
        handleStudyPage env params w =
          (.ok (Response.clarification
            "Multiple studies found. Please specify which one:"
            (found.map ResolvedStudy.toOption)), w1) ∧
        handleResultsPage env params w =
          (.ok (Response.clarification
            "Multiple studies found. Please specify which one:"
            (found.map ResolvedStudy.toOption)), w1) ∧
        (found.map ResolvedStudy.toOption).length = found.length ∧
        Response.successFlag (Response.clarification
          "Multiple studies found. Please specify which one:"
          (found.map ResolvedStudy.toOption)) = false ∧
        Response.needsSelection (Response.clarification
          "Multiple studies found. Please specify which one:"
          (found.map ResolvedStudy.toOption)) = true) := by
  have hlen : 0 < kws.length := List.length_pos.mpr hne
  have hstudy : handleStudyPage env params w =
      handleStudyPageKeywords env params w := by
    rcases hps : params.studyId with _ | sid
    · simp [handleStudyPage, hps]
    · rw [hps] at hid
      simp only [jsTruthyStr, bne_eq_false_iff_eq] at hid
      subst hid
      simp [handleStudyPage, hps]
  have hresults : handleResultsPage env params w =
      handleResultsPageKeywords env params w := by
    rcases hps : params.studyId with _ | sid
    · simp [handleResultsPage, hps]
    · rw [hps] at hid
      simp only [jsTruthyStr, bne_eq_false_iff_eq] at hid
      subst hid
      simp [handleResultsPage, hps]
  refine ⟨?_, ?_, ?_⟩
  · intro hnil
    subst hnil
    constructor
    · rw [hstudy]
      simp [handleStudyPageKeywords, hkw, hlen, hsearch]
    · rw [hresults]
      simp [handleResultsPageKeywords, hkw, hlen, hsearch]
  · intro m hone
    subst hone
    constructor
    · rw [hstudy]
      simp [handleStudyPageKeywords, hkw, hlen, hsearch]
    · rw [hresults]
      simp [handleResultsPageKeywords, hkw, hlen, hsearch]
  · intro h2
    rcases found with _ | ⟨a, _ | ⟨b, rest⟩⟩
    · simp at h2
    · simp at h2
    · refine ⟨?_, ?_, by simp, rfl, rfl⟩
      · rw [hstudy]
        simp [handleStudyPageKeywords, hkw, hlen, hsearch]
      · rw [hresults]
        simp [handleResultsPageKeywords, hkw, hlen, hsearch]

/-- Claim C8: on a results-page invocation whose study resolution
succeeded with some study id (the shared tail resultsPageFinish), with a
non-empty provided gene list: when batch validation keeps zero genes the
outcome is the error naming the provided genes (first conjunct, an error
even though genes were provided); when at least one gene survives, and
the subsequent best-effort profile lookup and metadata fetch complete,
the outcome is a success whose metadata gene list is exactly the
validated (normalized) list with invalid entries dropped and whose
caseSetId is the or-default of the supplied value (second conjunct); the
or-default equals the supplied caseSetId whenever one is present and
non-empty and equals studyId followed by _all when none is supplied
(third conjunct). -/
theorem results_gene_outcomes (env : Env) (params : Params) (sid : String)
    (gs validGenes : List String) (w w1 : World)
    (hg : params.genes = some gs) (hgne : gs ≠ [])
    (hv : GeneResolver.validateBatch env gs w = (.ok validGenes, w1)) :
    (validGenes = [] →
        resultsPageFinish env params sid w =
          (.ok (Response.error "No valid genes found"
            (some (Details.providedGenes gs))), w1)) ∧
    (validGenes ≠ [] →
        ∀ profile w2 study w3,
          ProfileResolver.getForStudy env sid
              (jsOrStr (params.alterations.bind List.head?) "mutation") w1 =
            (.ok profile, w2) →
          StudyResolver.getById env sid w2 = (.ok study, w3) →
          resultsPageFinish env params sid w =
            (.ok (Response.success
              (env.buildResultsUrl
                { studies := [sid], genes := validGenes,
                  caseSelection :=
                    ⟨"case_set", jsOrStr params.caseSetId (sid ++ "_all")⟩,
                  tab := params.tab })
              { studyId := sid, studyName := some study.name,
                genes := some validGenes,
                caseSetId := some (jsOrStr params.caseSetId (sid ++ "_all")),
                molecularProfileId :=
                  profile.map ResolvedProfile.molecularProfileId }), w3)) ∧
    ((∀ c, params.caseSetId = some c → c ≠ "" →
        jsOrStr params.caseSetId (sid ++ "_all") = c) ∧
     (params.caseSetId = none →
        jsOrStr params.caseSetId (sid ++ "_all") = sid ++ "_all")) := by
  have hglen : (gs.length == 0) = false := by
    simp [hgne]
  refine ⟨?_, ?_, ?_, ?_⟩
  · intro hnil
    subst hnil
    simp [resultsPageFinish, hg, hglen, hv]
  · intro hnonempty profile w2 study w3 hprof hbyid
    have hvlen : (validGenes.length == 0) = false := by
      simp [hnonempty]
    simp [resultsPageFinish, hg, hglen, hv, hvlen, hprof, hbyid]
  · intro c hc hcne
    simp [jsOrStr, hc, hcne]
  · intro hc
    simp [jsOrStr, hc]

/-- A concrete lung study record used by the witnesses. -/
def lungA : StudyRecord :=
  ⟨"luad_tcga", "Lung Adenocarcinoma (TCGA)", some "LUAD cohort",
    some "Lung", some 566⟩

/-- A second concrete lung study record used by the witnesses. -/
def lungB : StudyRecord :=
  ⟨"lusc_tcga", "Lung Squamous Cell Carcinoma (TCGA)", none,
    some "Lung", some 487⟩

/-- A test catalog listing the two lung studies and failing elsewhere. -/
def envTwoLung : Env :=
  { getAllStudies := .ok [lungA, lungB],
    getStudy := fun _ => .error "Study not found",
    getGene := fun _ => .error "Gene not found",
    getMolecularProfiles := fun _ => .ok [],
    buildStudyUrl := fun _ => "url",
    buildPatientUrl := fun _ => "url",
    buildResultsUrl := fun _ => "url" }

/-- A test catalog for the results page: one study, one valid gene, one
mutation profile. -/
def envResults : Env :=
  { getAllStudies := .ok [lungA],
    getStudy := fun i =>
      if i == "luad_tcga" then .ok lungA else .error "Study not found",
    getGene := fun g =>
      if g == "TP53" then .ok () else .error "Gene not found",
    getMolecularProfiles := fun _ =>
      .ok [⟨"luad_tcga_mutations", "MUTATION_EXTENDED", "Mutations", none⟩],
    buildStudyUrl := fun _ => "url",
    buildPatientUrl := fun _ => "url",
    buildResultsUrl := fun _ => "url" }

/-- Keyword-only parameters for the clarification witness. -/
def paramsKeywordsOnly : Params := { studyKeywords := some ["lung"] }

/-- Witness for claim C1: against the two-study catalog, the keyword
lung yields two matches and both handlers return the clarification
outcome with exactly two options. -/
theorem keyword_resolution_outcomes_witness :
    handleStudyPage envTwoLung paramsKeywordsOnly initialWorld =
      (.ok (Response.clarification
        "Multiple studies found. Please specify which one:"
        ([lungA.toResolved, lungB.toResolved].map ResolvedStudy.toOption)),
        (StudyResolver.search envTwoLung ["lung"] initialWorld).2) ∧
    handleResultsPage envTwoLung paramsKeywordsOnly initialWorld =
      (.ok (Response.clarification
        "Multiple studies found. Please specify which one:"
        ([lungA.toResolved, lungB.toResolved].map ResolvedStudy.toOption)),
        (StudyResolver.search envTwoLung ["lung"] initialWorld).2) ∧
    ([lungA.toResolved, lungB.toResolved].map ResolvedStudy.toOption).length =
      ([lungA.toResolved, lungB.toResolved] : List ResolvedStudy).length ∧
    Response.successFlag (Response.clarification
      "Multiple studies found. Please specify which one:"
      ([lungA.toResolved, lungB.toResolved].map ResolvedStudy.toOption)) =
      false ∧
    Response.needsSelection (Response.clarification
      "Multiple studies found. Please specify which one:"
      ([lungA.toResolved, lungB.toResolved].map ResolvedStudy.toOption)) =
      true :=
  (keyword_resolution_outcomes envTwoLung paramsKeywordsOnly ["lung"]
    [lungA.toResolved, lungB.toResolved] initialWorld
    (StudyResolver.search envTwoLung ["lung"] initialWorld).2
    rfl rfl (by decide) rfl).2.2 (by decide)

/-- Witness for claim C4: an unknown target page throws inside the
dispatch and the handler converts the fault into the error outcome
carrying its message. -/
theorem handler_total_and_catches_witness :
    handleResolveAndBuildUrl envTwoLung ⟨"bogus", {}⟩ initialWorld =
      (Response.error "Unknown target page: bogus"
        (some (Details.errVal "Unknown target page: bogus")), initialWorld) :=
  (handler_total_and_catches envTwoLung ⟨"bogus", {}⟩ initialWorld).1
    "Unknown target page: bogus" initialWorld rfl

/-- Witness for claim C5: tp53 and TP53 run identically, and after the
negative result of tp53 is cached a later call (clock moved forward
within the ttl) returns false without touching the world. -/
theorem geneValidate_norm_and_negativeCache_witness :
    GeneResolver.validate envEmptyProfiles "tp53" initialWorld =
      GeneResolver.validate envEmptyProfiles "TP53" initialWorld ∧
    GeneResolver.validate envEmptyProfiles "tp53"
        { (GeneResolver.validate envEmptyProfiles "tp53" initialWorld).2 with
            now := 1000 } =
      (.ok false,
        { (GeneResolver.validate envEmptyProfiles "tp53" initialWorld).2 with
            now := 1000 }) :=
  ⟨(geneValidate_norm_and_negativeCache envEmptyProfiles).1 "tp53" "TP53"
      initialWorld (by decide),
   (geneValidate_norm_and_negativeCache envEmptyProfiles).2 "tp53"
      initialWorld (GeneResolver.validate envEmptyProfiles "tp53" initialWorld).2
      rfl rfl 1000 (by decide)⟩

/-- Witness for claim C7: a keyword matching nothing yields the empty
result list and no error. -/
theorem search_characterization_witness :
    (∃ w1, StudyResolver.search envTwoLung ["zzz-no-match"] initialWorld =
      (.ok (([lungA, lungB].filter
          (fun st => st.matchesKeywords ["zzz-no-match"])).map
        StudyRecord.toResolved), w1)) ∧
    ((∀ st ∈ [lungA, lungB],
        st.matchesKeywords ["zzz-no-match"] = false) →
      (StudyResolver.search envTwoLung ["zzz-no-match"] initialWorld).1 =
        .ok []) :=
  search_characterization envTwoLung ["zzz-no-match"] [lungA, lungB]
    initialWorld rfl rfl

/-- Results-page parameters with one valid and one invalid gene and no
caseSetId. -/
def paramsResults : Params :=
  { studyId := some "luad_tcga", genes := some ["TP53", "zzzz"] }

/-- Witness for claim C8: with genes TP53 (valid) and zzzz (invalid) and
no caseSetId supplied, the results tail succeeds with metadata keeping
only TP53, caseSetId luad_tcga_all and the resolved mutation profile. -/
theorem results_gene_outcomes_witness :
    resultsPageFinish envResults paramsResults "luad_tcga" initialWorld =
      (.ok (Response.success "url"
        { studyId := "luad_tcga",
          studyName := some "Lung Adenocarcinoma (TCGA)",
          genes := some ["TP53"],
          caseSetId := some "luad_tcga_all",
          molecularProfileId := some "luad_tcga_mutations" }),
        (StudyResolver.getById envResults "luad_tcga"
          (ProfileResolver.getForStudy envResults "luad_tcga" "mutation"
            (GeneResolver.validateBatch envResults ["TP53", "zzzz"]
              initialWorld).2).2).2) :=
  (results_gene_outcomes envResults paramsResults "luad_tcga"
    ["TP53", "zzzz"] ["TP53"] initialWorld
    (GeneResolver.validateBatch envResults ["TP53", "zzzz"] initialWorld).2
    rfl (by decide) rfl).2.1 (by decide)
    (some ⟨"luad_tcga_mutations", "MUTATION_EXTENDED", "Mutations", none⟩)
    (ProfileResolver.getForStudy envResults "luad_tcga" "mutation"
      (GeneResolver.validateBatch envResults ["TP53", "zzzz"]
        initialWorld).2).2
    (StudyRecord.toResolved lungA)
    (StudyResolver.getById envResults "luad_tcga"
      (ProfileResolver.getForStudy envResults "luad_tcga" "mutation"
        (GeneResolver.validateBatch envResults ["TP53", "zzzz"]
          initialWorld).2).2).2
    rfl rfl

/-- Patient-page parameters with a study id but no patient or sample. -/
def paramsPatientNoId : Params := { studyId := some "s" }

/-- Witness for claim C9: the missing-identifier error comes back with
the world untouched, so zero catalog requests were made. -/
theorem patientPage_missingId_failFast_witness :
    handlePatientPage envTwoLung paramsPatientNoId initialWorld =
      (.ok (Response.error
        "Either patientId or sampleId must be provided" none),
        initialWorld) ∧
    (handlePatientPage envTwoLung paramsPatientNoId
        initialWorld).2.catalogCalls = initialWorld.catalogCalls :=
  patientPage_missingId_failFast envTwoLung paramsPatientNoId "s"
    initialWorld rfl (by decide) rfl rfl

/-- Parameters carrying both a direct study id and keywords. -/
def paramsBoth : Params :=
  { studyId := some "luad_tcga", studyKeywords := some ["lung"] }

/-- Witness for claim C10: with both fields supplied the handlers behave
exactly as with the keywords removed. -/
theorem directId_precedence_witness :
    handleStudyPage envResults paramsBoth initialWorld =
      handleStudyPage envResults { paramsBoth with studyKeywords := none }
        initialWorld ∧
    handleResultsPage envResults paramsBoth initialWorld =
      handleResultsPage envResults { paramsBoth with studyKeywords := none }
        initialWorld :=
  directId_precedence envResults paramsBoth "luad_tcga" ["lung"]
    initialWorld rfl (by decide) rfl (by decide)
